import Mathlib

/-
Verification development for `main_duck.py`, a four-step pipeline that
fetches Strava activities, writes them to CSV, and merges them into a
DuckDB warehouse.  Each Python function used by the claims is embedded
below as an executable Lean definition; library calls (DuckDB SQL
operators, Python `datetime`, pandas) are embedded according to their
documented semantics.
-/

/-! ## The regular expression of the `activities` view

The view computes
`regexp_extract(name, '^(.*)\s+with\s+(.+)$', g)` for groups `g = 1, 2`.
DuckDB regular expressions are RE2: `\s` is `[\t\n\f\r ]`, `.` matches any
character except a newline, `^`/`$` anchor at the ends of the whole string,
submatches are assigned greedily from the left, and when the pattern does
not match, `regexp_extract` returns the empty string (not NULL).
We model the match of this one fixed pattern on a `List Char`. -/

/-- RE2 `\s`: space, tab, newline, form feed, carriage return. -/
def isWs (c : Char) : Bool :=
  c = ' ' || c = '\t' || c = '\n' || c = '\x0c' || c = '\r'

/-- Dot (`.`) in RE2 matches everything but a newline, so a group matched by
`(.*)` or `(.+)` contains no `'\n'`. -/
def noNl (l : List Char) : Bool :=
  !(l.contains '\n')

/-- Greedy choice of the second `\s+`: `run` is the maximal whitespace run
after the literal `with`, `tail` what follows it.  The separator takes `j`
characters of `run` (it must take at least one, and cannot reach into
`tail`, whose first character is not whitespace); the group `(.+)$` gets
the rest, which must be nonempty and newline-free.  The largest viable `j`
is tried first. -/
def tryWs2 : ℕ → List Char → List Char → Option (List Char)
  | 0, _, _ => none
  | j + 1, run, tail =>
    let g2 := run.drop (j + 1) ++ tail
    if g2 ≠ [] ∧ noNl g2 = true then some g2 else tryWs2 j run tail

/-- Try to match `\s+with\s+(.+)$` against `rest` (the part of the name
after group 1) and return the text of group 2.  The first `\s+` is forced
to be the maximal whitespace run, because the following literal `w` is not
whitespace. -/
def parseSep (rest : List Char) : Option (List Char) :=
  let ws1 := rest.takeWhile isWs
  let r1 := rest.dropWhile isWs
  if ws1.isEmpty then none
  else
    match r1 with
    | 'w' :: 'i' :: 't' :: 'h' :: r2 =>
      let run := r2.takeWhile isWs
      let tail := r2.dropWhile isWs
      tryWs2 run.length run tail
    | _ => none

/-- Candidate split at prefix length `i`: group 1 is `s.take i` (which
`(.*)` requires to be newline-free), the rest must match
`\s+with\s+(.+)$`. -/
def trySplitAt (s : List Char) (i : ℕ) : Option (List Char × List Char) :=
  let g1 := s.take i
  if noNl g1 = true then (parseSep (s.drop i)).map (fun g2 => (g1, g2))
  else none

/-- The leading `(.*)` is greedy: split positions are tried from the
longest prefix down. -/
def searchG1 (s : List Char) : ℕ → Option (List Char × List Char)
  | 0 => trySplitAt s 0
  | i + 1 =>
    match trySplitAt s (i + 1) with
    | some g => some g
    | none => searchG1 s i

/-- Full match of `^(.*)\s+with\s+(.+)$` against `s`, returning the two
capture groups. -/
def matchSplit (s : List Char) : Option (List Char × List Char) :=
  searchG1 s s.length

/-- Whether the view's pattern matches the activity name. -/
def nameMatches (s : String) : Bool :=
  (matchSplit s.toList).isSome

/-- DuckDB `regexp_extract(name, pattern, 1)`: group 1, or `''` when there is no
match (DuckDB returns the empty string, not NULL, on a failed match). -/
def regexpExtract1 (name : String) : String :=
  match matchSplit name.toList with
  | some g => String.mk g.1
  | none => ""

/-- DuckDB `regexp_extract(name, pattern, 2)`: group 2, or `''` on no match. -/
def regexpExtract2 (name : String) : String :=
  match matchSplit name.toList with
  | some g => String.mk g.2
  | none => ""

/-! ## Numeric operators of the view

`distance` is a `double`, `moving_time` an `int`; both are sent through
`x // k` (DuckDB floor division) and `round(_, 1)` (DuckDB rounds half
away from zero).  Reals are modelled as `ℚ`. -/

/-- DuckDB `a // b`: floor division, as a numeric value. -/
def ddiv (a b : ℚ) : ℚ :=
  (⌊a / b⌋ : ℚ)

/-- DuckDB `round(q, 1)`: one decimal, ties away from zero. -/
def round1 (q : ℚ) : ℚ :=
  if q < 0 then -((⌊-q * 10 + 1 / 2⌋ : ℚ) / 10)
  else (⌊q * 10 + 1 / 2⌋ : ℚ) / 10

/-! ## The base table and the `activities` view -/

/-- A row of the base table `activities_raw`
(`id bigint, name varchar, start_date_local timestamp, type varchar,
distance double, moving_time int`). -/
structure RawRow where
  id : ℤ
  name : String
  start_date_local : String
  type : String
  distance : ℚ
  moving_time : ℤ
deriving DecidableEq, Repr

/-- A row of the derived view `activities`.  `workout_type` and `coach`
are `Option String` because the `case` expressions have no `else`: an
unmatched type yields SQL NULL (`none`). -/
structure ViewRow where
  id : ℤ
  name : String
  start_date : String
  type : String
  workout_type : Option String
  coach : Option String
  distance_km : ℚ
  moving_time_min : ℚ
deriving DecidableEq, Repr

/-- The `select` list of the view `activities`, applied to one base row. -/
def viewRow (r : RawRow) : ViewRow where
  id := r.id
  name := r.name
  start_date := r.start_date_local
  type := r.type
  workout_type :=
    if r.type = "Workout" then some (regexpExtract1 r.name) else none
  coach :=
    if r.type = "Workout" ∨ r.type = "VirtualRide" then
      some (regexpExtract2 r.name)
    else none
  distance_km := round1 (ddiv r.distance 1000)
  moving_time_min := round1 (ddiv (r.moving_time : ℚ) 60)

/-- The spec's first example activity. -/
def exampleRow1 : RawRow :=
  { id := 1, name := "Morning Run with Alex", start_date_local := "2024-06-01 08:00:00",
    type := "Workout", distance := 5000, moving_time := 1800 }

/-- The spec's second example activity. -/
def exampleRow2 : RawRow :=
  { id := 2, name := "Evening Ride", start_date_local := "2024-06-02 18:00:00",
    type := "Ride", distance := 10000, moving_time := 2400 }

/-- A workout whose name does not contain ` with `: the view's pattern
does not match it. -/
def nonMatchingRow : RawRow :=
  { id := 7, name := "Run", start_date_local := "2024-06-03 07:00:00",
    type := "Workout", distance := 0, moving_time := 0 }

/-- Base-table row of the spec's merge example (`id=1`, name `Old`). -/
def oldRow : RawRow :=
  { id := 1, name := "Old", start_date_local := "2024-01-01 00:00:00",
    type := "Run", distance := 1000, moving_time := 600 }

/-- Staged CSV row of the merge example (`id=1`, name `New`). -/
def newRow : RawRow :=
  { id := 1, name := "New", start_date_local := "2024-01-02 00:00:00",
    type := "Run", distance := 2000, moving_time := 700 }

/-- Staged CSV row of the merge example with a fresh id (`id=3`). -/
def thirdRow : RawRow :=
  { id := 3, name := "Third", start_date_local := "2024-01-03 00:00:00",
    type := "Ride", distance := 3000, moving_time := 800 }

/-! ## The upsert loader (`upsert_duckdb_activities`)

For each CSV file the loader runs
`merge into activities_raw using activities_staging as upserts
 on (upserts.id = activities_raw.id)
 when matched then update when not matched then insert;`.
Tables are modelled as lists of rows; a bare `update` overwrites every
column of the matched target row with the source row, a bare `insert`
inserts the source row. -/

/-- The `when matched then update` arm, applied to one target row: if some
staged row has the same id, all columns of the target row are replaced by
it (DuckDB takes the matching source row; with unique staged ids it is
unambiguous, for faithfulness we take the first). -/
def updateRow (csv : List RawRow) (r : RawRow) : RawRow :=
  match csv.find? (fun c => c.id == r.id) with
  | some c => c
  | none => r

/-- The whole `merge into` statement: every base row is updated in place
where a staged row matches it, and every staged row matching no base row
is inserted. -/
def mergeInto (base csv : List RawRow) : List RawRow :=
  base.map (updateRow csv) ++
    csv.filter (fun c => !(base.any (fun r => r.id == c.id)))

/-- Row of a table with a given id (`select ... where id = i`, first
match). -/
def lookupId (t : List RawRow) (i : ℤ) : Option RawRow :=
  t.find? (fun r => r.id == i)

/-! ## The activity fetcher (`fetch_activities`)

The while loop requests page 1, 2, ... with `per_page = 200` and stops as
soon as a page comes back empty.  The source API is modelled as serving a
fixed total of `T` records in consecutive full pages of 200 (the final
page partial): page `p` (1-indexed) carries
`min 200 (T - 200*(p-1))` records. -/

/-- Number of records the modelled source API returns on page `p`. -/
def pageOf (T p : ℕ) : ℕ :=
  min 200 (T - 200 * (p - 1))

/-- The records on page `p`, as indices into the source's record list. -/
def pageItems (T p : ℕ) : List ℕ :=
  (List.range (pageOf T p)).map (fun i => 200 * (p - 1) + i)

/-- The fetch loop from page `page` on, counting HTTP page requests: the
request for `page` always happens; the loop continues iff the page was
nonempty. -/
def fetchAux (T page : ℕ) : ℕ :=
  if pageOf T page = 0 then 1 else 1 + fetchAux T (page + 1)
termination_by T + 1 - page
decreasing_by
  have h2 : 200 * (page - 1) < T := by
    by_contra hc
    have : pageOf T page = 0 := by
      unfold pageOf
      omega
    omega
  omega

/-- Total number of page requests `fetch_activities` issues when the
source holds `T` records: the loop starts at page 1. -/
def fetchCount (T : ℕ) : ℕ :=
  fetchAux T 1

/-- The accumulated `all_activities` list (as record indices) from page
`page` on. -/
def fetchRecsAux (T page : ℕ) : List ℕ :=
  if pageOf T page = 0 then [] else pageItems T page ++ fetchRecsAux T (page + 1)
termination_by T + 1 - page
decreasing_by
  have h2 : 200 * (page - 1) < T := by
    by_contra hc
    have : pageOf T page = 0 := by
      unfold pageOf
      omega
    omega
  omega

/-- All records `fetch_activities` accumulates for a source of `T`
records. -/
def fetchRecords (T : ℕ) : List ℕ :=
  fetchRecsAux T 1

/-! ## The fetch window (`year_to_unix_range` and the default window)

`year_to_unix_range` builds `datetime(year, 1, 1, tzinfo=UTC)` and
`datetime(year + 1, 1, 1, tzinfo=UTC)` and returns their integer Unix
timestamps.  Python `datetime` uses the proleptic Gregorian calendar and
accepts only years 1..9999 (`ValueError` otherwise); the timestamp of an
aware datetime is `86400 * (ordinal - ordinal(1970-01-01))` at midnight.
`days_before_year` below is CPython's closed form; `daysUpTo` is an
independent year-by-year recount used to check it. -/

/-- The Gregorian leap-year rule. -/
def isLeapYear (y : ℕ) : Bool :=
  y % 4 = 0 && (y % 100 != 0 || y % 400 = 0)

/-- Days in calendar year `y`. -/
def daysInYear (y : ℕ) : ℕ :=
  if isLeapYear y then 366 else 365

/-- Total days in the years `1, 2, ..., n`, counted one year at a time. -/
def daysUpTo : ℕ → ℕ
  | 0 => 0
  | n + 1 => daysUpTo n + daysInYear (n + 1)

/-- CPython's `days_before_year(y)`: days between 0001-01-01 and the start
of year `y`. -/
def daysBeforeYear (y : ℕ) : ℕ :=
  365 * (y - 1) + (y - 1) / 4 - (y - 1) / 100 + (y - 1) / 400

/-- Python `int(datetime(y, 1, 1, tzinfo=UTC).timestamp())`: seconds between the
Unix epoch and midnight UTC of Jan 1 of year `y`. -/
def jan1Timestamp (y : ℕ) : ℤ :=
  ((daysBeforeYear y : ℤ) - (daysBeforeYear 1970 : ℤ)) * 86400

/-- Function `year_to_unix_range(year)`: the pair of timestamps of Jan 1 of `year`
and of `year + 1`, or `none` when the Python `datetime` constructor would
raise `ValueError` (a year outside 1..9999). -/
def yearToUnixRange (year : ℤ) : Option (ℤ × ℤ) :=
  if 1 ≤ year ∧ year + 1 ≤ 9999 then
    some (jan1Timestamp year.toNat, jan1Timestamp (year.toNat + 1))
  else none

/-- The `(after, before)` window `fetch_activities` uses: the year range
when a year is passed, otherwise `now - 7 days` to `now` (in whole
seconds). -/
def fetchWindow (now : ℤ) (year : Option ℤ) : Option (ℤ × ℤ) :=
  match year with
  | some y => yearToUnixRange y
  | none => some (now - 7 * 86400, now)

/-! ## The token exchanger (`get_access_token`) -/

/-- The observable part of the token endpoint's HTTP response: status
code, body text, and the `access_token` field of the JSON body. -/
structure TokenResponse where
  status_code : ℕ
  text : String
  access_token : String
deriving DecidableEq, Repr

/-- Function `get_access_token`, as a function of the endpoint's response: on any
status other than 200 the logged error message (which embeds the response
body) is produced and the run aborts (`Except.error`); on 200 the
access-token string from the JSON body is returned. -/
def getAccessToken (r : TokenResponse) : Except String String :=
  if r.status_code ≠ 200 then
    Except.error ("Error fetching access token: " ++ r.text)
  else Except.ok r.access_token

/-! ## The column projector (`select_columns`) and pandas tables

A pandas `DataFrame` is modelled as its ordered list of columns, each a
name with its cell data.  `df[[c for c in strava_columns_used if c in
df.columns]]` keeps, in the fixed order of `strava_columns_used`, exactly
the listed columns present in the input. -/

/-- A pandas table: ordered columns, each a name and its cells. -/
abbrev DataFrame := List (String × List String)

/-- The fixed ordered column list `strava_columns_used`. -/
def stravaColumnsUsed : List String :=
  ["id", "name", "start_date_local", "type", "distance", "moving_time"]

/-- Projection over an arbitrary column list (the body of
`select_columns`). -/
def projectColumns (used : List String) (df : DataFrame) : DataFrame :=
  used.filterMap (fun c => df.find? (fun col => col.1 == c))

/-- Function `select_columns(df)`. -/
def selectColumns (df : DataFrame) : DataFrame :=
  projectColumns stravaColumnsUsed df

/-- Pandas `pd.DataFrame(records)` for a list of JSON records: the columns are
the record keys in order of first appearance.  (Only the column structure
is modelled; for the claims below the cells are irrelevant, and with zero
records there are no columns at all.) -/
def dfOfRecords (recs : List (List (String × String))) : DataFrame :=
  let cols := recs.foldl
    (fun acc r => acc ++ ((r.map Prod.fst).filter (fun k => !(acc.contains k)))) []
  cols.map (fun c => (c, recs.filterMap (fun r => (r.find? (fun kv => kv.1 == c)).map Prod.snd)))

/-- The header fields `DataFrame.to_csv(..., index=False)` writes: the
column names. -/
def csvHeaderFields (df : DataFrame) : List String :=
  df.map Prod.fst

/-! ## The entrypoint (`main`)

`main` tests `if args.year:` — Python truthiness, so `--year 0` takes the
`else` branch.  Its observable plan is the CSV file name it writes and the
fetch window it requests. -/

/-- The file name written and the window fetched, as a function of the
parsed `--year` argument and the current time. -/
def mainPlan (now : ℤ) (argYear : Option ℤ) : String × Option (ℤ × ℤ) :=
  match argYear with
  | some y =>
    if y ≠ 0 then
      ("activities_" ++ toString y ++ ".csv", fetchWindow now (some y))
    else
      ("activities_last_7_days.csv", fetchWindow now none)
  | none => ("activities_last_7_days.csv", fetchWindow now none)

/-! ## Helper lemmas -/

/-- Rounding `round(_, 1)` is the identity on integral values. -/
theorem round1_intCast (n : ℤ) : round1 ((n : ℤ) : ℚ) = (n : ℚ) := by
  unfold round1
  by_cases h : ((n : ℤ) : ℚ) < 0
  · rw [if_pos h]
    have h1 : -((n : ℤ) : ℚ) * 10 + 1 / 2 = ((-10 * n : ℤ) : ℚ) + 1 / 2 := by
      push_cast
      ring
    rw [h1, Int.floor_int_add, show ⌊(1 / 2 : ℚ)⌋ = 0 from by norm_num]
    push_cast
    ring
  · rw [if_neg h]
    have h1 : ((n : ℤ) : ℚ) * 10 + 1 / 2 = ((10 * n : ℤ) : ℚ) + 1 / 2 := by
      push_cast
      ring
    rw [h1, Int.floor_int_add, show ⌊(1 / 2 : ℚ)⌋ = 0 from by norm_num]
    push_cast
    ring

/-- The matched-update arm never changes the id of the target row. -/
theorem updateRow_id (csv : List RawRow) (r : RawRow) :
    (updateRow csv r).id = r.id := by
  unfold updateRow
  cases h : csv.find? (fun c => c.id == r.id) with
  | none => rfl
  | some c =>
    have hc := List.find?_some h
    simpa using hc

/-- Applying the matched-update arm twice is the same as applying it
once. -/
theorem updateRow_idem (csv : List RawRow) (r : RawRow) :
    updateRow csv (updateRow csv r) = updateRow csv r := by
  unfold updateRow
  cases h : csv.find? (fun c => c.id == r.id) with
  | none => simp [h]
  | some c =>
    have hc : c.id = r.id := by simpa using List.find?_some h
    simp [hc, h]

/-- Lemma: `find?` only depends on the predicate's values on the list. -/
theorem find?_congrOn {α : Type} {p q : α → Bool} :
    ∀ l : List α, (∀ a ∈ l, p a = q a) → l.find? p = l.find? q := by
  intro l
  induction l with
  | nil => intro _; rfl
  | cons a t ih =>
    intro h
    rw [List.find?_cons, List.find?_cons, h a (List.mem_cons_self a t)]
    cases q a
    · exact ih fun b hb => h b (List.mem_cons_of_mem a hb)
    · rfl

/-- Looking a row up after a merge: staged rows win, otherwise the base
row is still there.  In particular no row is ever deleted. -/
theorem lookup_mergeInto (base csv : List RawRow) (i : ℤ) :
    lookupId (mergeInto base csv) i = (lookupId csv i).or (lookupId base i) := by
  unfold lookupId mergeInto
  rw [List.find?_append]
  have hmap : ((base.map (updateRow csv)).find? (fun r => r.id == i)) =
      (base.find? (fun r => r.id == i)).map (updateRow csv) := by
    rw [List.find?_map]
    congr 1
    apply find?_congrOn
    intro r _
    simp [Function.comp, updateRow_id]
  rw [hmap, List.find?_filter]
  cases hb : base.find? (fun r => r.id == i) with
  | some r =>
    have hri : r.id = i := by simpa using List.find?_some hb
    cases hcsv : csv.find? (fun c => c.id == i) with
    | some c =>
      have hup : updateRow csv r = c := by
        unfold updateRow
        rw [hri, hcsv]
      simp [hup, hcsv]
    | none =>
      have hup : updateRow csv r = r := by
        unfold updateRow
        rw [hri, hcsv]
      simp [hup, hcsv]
  | none =>
    have hall : ∀ r ∈ base, ¬(r.id == i) = true := List.find?_eq_none.mp hb
    have hcong : csv.find?
        (fun c => decide ((!(base.any fun r => r.id == c.id)) = true ∧ (c.id == i) = true)) =
        csv.find? (fun c => c.id == i) := by
      apply find?_congrOn
      intro c _
      cases hci : (c.id == i) with
      | false => simp [hci]
      | true =>
        have hci' : c.id = i := by simpa using hci
        have hany : (base.any fun r => r.id == c.id) = false := by
          rw [List.any_eq_false]
          intro r hr
          rw [hci']
          exact hall r hr
        simp [hany]
    rw [hcong]
    simp

/-- Closed form for the loop count of the fetcher: starting at any page
`page ≥ 1` with `n` records not yet served, the loop issues
`⌈n / 200⌉ + 1` further requests. -/
theorem fetchAux_eq_core :
    ∀ n T page, 1 ≤ page → T - 200 * (page - 1) = n →
      fetchAux T page = (n + 199) / 200 + 1 := by
  intro n
  induction n using Nat.strong_induction_on with
  | _ n ih =>
    intro T page hp hn
    unfold fetchAux
    by_cases h : pageOf T page = 0
    · rw [if_pos h]
      unfold pageOf at h
      omega
    · rw [if_neg h]
      unfold pageOf at h
      have h2 : 200 * (page - 1) < T := by omega
      have hlt : T - 200 * page < n := by omega
      have hrec := ih (T - 200 * page) hlt T (page + 1) (by omega) (by omega)
      rw [hrec]
      omega

/-- The year-by-year day count agrees with CPython's closed form
`365 n + n/4 - n/100 + n/400`. -/
theorem daysUpTo_eq (n : ℕ) :
    daysUpTo n = 365 * n + n / 4 - n / 100 + n / 400 := by
  induction n with
  | zero => rfl
  | succ n ih =>
    show daysUpTo n + daysInYear (n + 1) = _
    rw [ih]
    unfold daysInYear
    split
    case isTrue h =>
      have h' : (n + 1) % 4 = 0 ∧ ((n + 1) % 100 ≠ 0 ∨ (n + 1) % 400 = 0) := by
        simpa [isLeapYear] using h
      omega
    case isFalse h =>
      have h' : ¬((n + 1) % 4 = 0 ∧ ((n + 1) % 100 ≠ 0 ∨ (n + 1) % 400 = 0)) := by
        simpa [isLeapYear] using h
      omega

/-- CPython's `days_before_year y` equals the year-by-year count of the
days in the years `1 .. y - 1`. -/
theorem daysBeforeYear_eq (y : ℕ) : daysBeforeYear y = daysUpTo (y - 1) := by
  rw [daysUpTo_eq]
  rfl

/-- Every column kept by the projection is a column of the input found
under its own name. -/
theorem mem_projectColumns {used : List String} {df : DataFrame}
    {p : String × List String} (hp : p ∈ projectColumns used df) :
    p.1 ∈ used ∧ df.find? (fun col => col.1 == p.1) = some p := by
  unfold projectColumns at hp
  rw [List.mem_filterMap] at hp
  obtain ⟨c, hc, hfind⟩ := hp
  have hc1 : p.1 = c := by simpa using List.find?_some hfind
  rw [hc1]
  exact ⟨hc, hfind⟩

/-- On a projected table, looking a projected column up by name gives the
same answer as on the original table. -/
theorem find?_projectColumns :
    ∀ (used : List String), used.Nodup → ∀ (df : DataFrame) (c : String), c ∈ used →
      (projectColumns used df).find? (fun col => col.1 == c) =
        df.find? (fun col => col.1 == c) := by
  intro used
  induction used with
  | nil =>
    intro _ df c hc
    simp at hc
  | cons a t ih =>
    intro hnd df c hc
    have hat : a ∉ t := (List.nodup_cons.mp hnd).1
    have hnt : t.Nodup := (List.nodup_cons.mp hnd).2
    by_cases hca : c = a
    · subst hca
      cases hfa : df.find? (fun col => col.1 == c) with
      | some p =>
        have hp1 : p.1 = c := by simpa using List.find?_some hfa
        simp [projectColumns, List.filterMap_cons, hfa, List.find?_cons, hp1]
      | none =>
        rw [show projectColumns (c :: t) df = projectColumns t df by
          simp [projectColumns, List.filterMap_cons, hfa]]
        rw [List.find?_eq_none]
        intro x hx
        have hxt := (mem_projectColumns hx).1
        have : x.1 ≠ c := fun hxc => hat (hxc ▸ hxt)
        simpa using this
    · have hct : c ∈ t := by
        rcases List.mem_cons.mp hc with h | h
        · exact absurd h hca
        · exact h
      cases hfa : df.find? (fun col => col.1 == a) with
      | some p =>
        have hp1 : p.1 = a := by simpa using List.find?_some hfa
        have hne : ¬(p.1 == c) = true := by
          simp [hp1]
          exact fun h => hca h.symm
        simp only [projectColumns, List.filterMap_cons, hfa, List.find?_cons]
        rw [show (p.1 == c) = false by simpa using hne]
        exact ih hnt df c hct
      | none =>
        simp only [projectColumns, List.filterMap_cons, hfa]
        exact ih hnt df c hct

/-- The names of the projected columns are exactly the fixed list filtered
by presence in the input. -/
theorem map_fst_projectColumns :
    ∀ (used : List String) (df : DataFrame),
      (projectColumns used df).map Prod.fst =
        used.filter (fun c => df.any (fun col => col.1 == c)) := by
  intro used
  induction used with
  | nil => intro df; rfl
  | cons a t ih =>
    intro df
    cases hfa : df.find? (fun col => col.1 == a) with
    | some p =>
      have hp1 : p.1 = a := by simpa using List.find?_some hfa
      have hany : (df.any fun col => col.1 == a) = true :=
        List.any_eq_true.mpr ⟨p, List.mem_of_find?_eq_some hfa, by simp [hp1]⟩
      have hih := ih df
      unfold projectColumns at hih
      simp [projectColumns, List.filterMap_cons, hfa, List.filter_cons, hany, hp1, hih]
    | none =>
      have hany : (df.any fun col => col.1 == a) = false := by
        rw [List.any_eq_false]
        exact List.find?_eq_none.mp hfa
      have hih := ih df
      unfold projectColumns at hih
      simp [projectColumns, List.filterMap_cons, hfa, List.filter_cons, hany, hih]

/-- Projection over a duplicate-free column list is idempotent. -/
theorem projectColumns_idem (used : List String) (hnd : used.Nodup) (df : DataFrame) :
    projectColumns used (projectColumns used df) = projectColumns used df := by
  conv_lhs => rw [projectColumns]
  conv_rhs => rw [projectColumns]
  apply List.filterMap_congr
  intro c hc
  exact find?_projectColumns used hnd df c hc

/-- With duplicate-free staged ids, the matched-update arm fixes every
staged row. -/
theorem updateRow_mem_self (csv : List RawRow) (hcsv : (csv.map RawRow.id).Nodup)
    {a : RawRow} (ha : a ∈ csv) : updateRow csv a = a := by
  unfold updateRow
  cases h : csv.find? (fun c => c.id == a.id) with
  | none =>
    have := List.find?_eq_none.mp h a ha
    simp at this
  | some c =>
    have hc : c.id = a.id := by simpa using List.find?_some h
    have hmem : c ∈ csv := List.mem_of_find?_eq_some h
    exact List.inj_on_of_nodup_map hcsv hmem ha hc

/-- After a merge, every staged id is the id of some row of the result. -/
theorem mem_id_mergeInto (base csv : List RawRow) (c : RawRow) (hc : c ∈ csv) :
    ∃ x ∈ mergeInto base csv, x.id = c.id := by
  by_cases hb : base.any (fun r => r.id == c.id) = true
  · obtain ⟨r, hr, hpr⟩ := List.any_eq_true.mp hb
    refine ⟨updateRow csv r, ?_, ?_⟩
    · exact List.mem_append_left _ (List.mem_map_of_mem (updateRow csv) hr)
    · rw [updateRow_id]
      simpa using hpr
  · refine ⟨c, ?_, rfl⟩
    apply List.mem_append_right
    apply List.mem_filter.mpr
    refine ⟨hc, ?_⟩
    simp only [Bool.not_eq_true] at hb
    simp [hb]

/-- After a merge of duplicate-free tables, ids are still
duplicate-free. -/
theorem nodup_id_mergeInto (base csv : List RawRow)
    (hb : (base.map RawRow.id).Nodup) (hc : (csv.map RawRow.id).Nodup) :
    ((mergeInto base csv).map RawRow.id).Nodup := by
  unfold mergeInto
  rw [List.map_append]
  apply List.Nodup.append
  · rw [List.map_map]
    have heq : ∀ r ∈ base, (RawRow.id ∘ updateRow csv) r = RawRow.id r := by
      intro r _
      simp [Function.comp, updateRow_id]
    rw [List.map_congr_left heq]
    exact hb
  · exact (List.Sublist.map RawRow.id (List.filter_sublist csv)).nodup hc
  · intro x hx hy
    rw [List.map_map, List.mem_map] at hx
    rw [List.mem_map] at hy
    obtain ⟨r, hr, hrx⟩ := hx
    obtain ⟨c, hcmem, hcx⟩ := hy
    have hrid : r.id = x := by
      have := updateRow_id csv r
      simp [Function.comp] at hrx
      rw [this] at hrx
      exact hrx
    have hcfilter := List.of_mem_filter hcmem
    have hany : base.any (fun r' => r'.id == c.id) = true :=
      List.any_eq_true.mpr ⟨r, hr, by simp [hrid, hcx]⟩
    rw [hany] at hcfilter
    simp at hcfilter

/-! ## Claims -/

/-- C1: the view maps the base row `{id 1, name "Morning Run with Alex",
type "Workout", distance 5000, moving_time 1800}` to `workout_type
"Morning Run", coach "Alex", distance_km 5.0, moving_time_min 30.0`, and
the row `{id 2, name "Evening Ride", type "Ride", distance 10000,
moving_time 2400}` to `workout_type` NULL, `coach` NULL, `distance_km
10.0, moving_time_min 40.0`. -/
theorem view_maps_examples :
    (viewRow exampleRow1).workout_type = some "Morning Run" ∧
    (viewRow exampleRow1).coach = some "Alex" ∧
    (viewRow exampleRow1).distance_km = 5 ∧
    (viewRow exampleRow1).moving_time_min = 30 ∧
    (viewRow exampleRow2).workout_type = none ∧
    (viewRow exampleRow2).coach = none ∧
    (viewRow exampleRow2).distance_km = 10 ∧
    (viewRow exampleRow2).moving_time_min = 40 := by
  refine ⟨by decide, by decide, ?_, ?_, by decide, by decide, ?_, ?_⟩
  · show round1 (ddiv exampleRow1.distance 1000) = 5
    rw [show ddiv exampleRow1.distance 1000 = ((5 : ℤ) : ℚ) from by
      norm_num [ddiv, exampleRow1]]
    rw [round1_intCast]
    norm_num
  · show round1 (ddiv (exampleRow1.moving_time : ℚ) 60) = 30
    rw [show ddiv ((exampleRow1.moving_time : ℤ) : ℚ) 60 = ((30 : ℤ) : ℚ) from by
      norm_num [ddiv, exampleRow1]]
    rw [round1_intCast]
    norm_num
  · show round1 (ddiv exampleRow2.distance 1000) = 10
    rw [show ddiv exampleRow2.distance 1000 = ((10 : ℤ) : ℚ) from by
      norm_num [ddiv, exampleRow2]]
    rw [round1_intCast]
    norm_num
  · show round1 (ddiv (exampleRow2.moving_time : ℚ) 60) = 40
    rw [show ddiv ((exampleRow2.moving_time : ℤ) : ℚ) 60 = ((40 : ℤ) : ℚ) from by
      norm_num [ddiv, exampleRow2]]
    rw [round1_intCast]
    norm_num

/-- C2, counterexample: for `T = 100` (not a multiple of 200) the claim
predicts `ceil(100/200) = 1` page request, but the loop issues 2: page 1
returns the 100 records, and only the request for page 2 comes back empty
and stops the loop. -/
theorem fetch_requests_claim_counterexample :
    fetchCount 100 = 2 ∧ (100 + 199) / 200 = 1 ∧ ¬(200 ∣ 100) ∧
    fetchCount 100 ≠ (100 + 199) / 200 := by
  have h := fetchAux_eq_core 100 100 1 le_rfl (by norm_num)
  have h2 : fetchCount 100 = 2 := by
    show fetchAux 100 1 = 2
    rw [h]
  exact ⟨h2, by norm_num, by decide, by rw [h2]; norm_num⟩

/-- C2, amended: for every total `T` the fetcher issues exactly
`ceil(T/200) + 1` page requests — the `ceil(T/200)` nonempty pages plus
the one empty page that stops the loop (for `T = 0` that is the single
empty page 1). -/
theorem fetch_requests_always_ceil_plus_one (T : ℕ) :
    fetchCount T = (T + 199) / 200 + 1 := by
  show fetchAux T 1 = _
  exact fetchAux_eq_core T T 1 le_rfl (by omega)

/-- C3, counterexample: the base row with name `"Run"` (which does not
match the pattern) and type `"Workout"` gets `workout_type = ''` — the
empty string DuckDB's `regexp_extract` returns on a failed match — not
NULL, contradicting the claim that both columns are NULL for every
non-matching name. -/
theorem view_nonmatching_null_counterexample :
    nameMatches nonMatchingRow.name = false ∧
    nonMatchingRow.type = "Workout" ∧
    (viewRow nonMatchingRow).workout_type = some "" ∧
    ¬((viewRow nonMatchingRow).workout_type = none ∧
      (viewRow nonMatchingRow).coach = none) := by
  decide

/-- C3, amended: `workout_type` is non-NULL only when type is `Workout`
and `coach` only when type is `Workout` or `VirtualRide`; for a
non-matching name the column is the empty string when its type condition
holds and NULL otherwise (NULL comes only from the `case`, never from the
regex). -/
theorem view_nonmatching_amended (r : RawRow) :
    ((viewRow r).workout_type ≠ none → r.type = "Workout") ∧
    ((viewRow r).coach ≠ none → r.type = "Workout" ∨ r.type = "VirtualRide") ∧
    (nameMatches r.name = false →
      (viewRow r).workout_type = (if r.type = "Workout" then some "" else none) ∧
      (viewRow r).coach =
        (if r.type = "Workout" ∨ r.type = "VirtualRide" then some "" else none)) := by
  have hwt : (viewRow r).workout_type =
      if r.type = "Workout" then some (regexpExtract1 r.name) else none := rfl
  have hco : (viewRow r).coach =
      if r.type = "Workout" ∨ r.type = "VirtualRide" then some (regexpExtract2 r.name)
      else none := rfl
  refine ⟨?_, ?_, ?_⟩
  · rw [hwt]
    split_ifs with h
    · intro _
      exact h
    · intro hn
      exact absurd rfl hn
  · rw [hco]
    split_ifs with h
    · intro _
      exact h
    · intro hn
      exact absurd rfl hn
  · intro hnm
    have hnone : matchSplit r.name.toList = none := by
      unfold nameMatches at hnm
      cases hms : matchSplit r.name.toList with
      | none => rfl
      | some g =>
        rw [hms] at hnm
        simp at hnm
    have he1 : regexpExtract1 r.name = "" := by
      unfold regexpExtract1
      rw [hnone]
    have he2 : regexpExtract2 r.name = "" := by
      unfold regexpExtract2
      rw [hnone]
    rw [hwt, hco, he1, he2]
    exact ⟨rfl, rfl⟩

/-- C3, witness: the amended statement at the concrete non-matching
workout row. -/
theorem view_nonmatching_amended_witness :
    nameMatches nonMatchingRow.name = false ∧
    (viewRow nonMatchingRow).workout_type = some "" ∧
    (viewRow nonMatchingRow).coach = some "" := by
  have h := (view_nonmatching_amended nonMatchingRow).2.2 (by decide)
  refine ⟨by decide, ?_, ?_⟩
  · rw [h.1]
    decide
  · rw [h.2]
    decide

/-- C4: merging a staged CSV updates every base row matched by id with
all the CSV values, inserts every CSV row with a fresh id, deletes
nothing, and keeps ids unique. -/
theorem merge_upsert_semantics (base csv : List RawRow)
    (hbase : (base.map RawRow.id).Nodup) (hcsv : (csv.map RawRow.id).Nodup) :
    (∀ i c, lookupId csv i = some c → lookupId (mergeInto base csv) i = some c) ∧
    (∀ i, lookupId csv i = none → lookupId (mergeInto base csv) i = lookupId base i) ∧
    (∀ r ∈ base, ∃ u ∈ mergeInto base csv, u.id = r.id) ∧
    ((mergeInto base csv).map RawRow.id).Nodup := by
  refine ⟨?_, ?_, ?_, nodup_id_mergeInto base csv hbase hcsv⟩
  · intro i c h
    rw [lookup_mergeInto, h]
    rfl
  · intro i h
    rw [lookup_mergeInto, h]
    rfl
  · intro r hr
    exact ⟨updateRow csv r,
      List.mem_append_left _ (List.mem_map_of_mem (updateRow csv) hr),
      updateRow_id csv r⟩

/-- C4, witness: base `[{id 1, name "Old", ...}]` merged with CSV
`[{id 1, name "New", ...}, {id 3, ...}]` — row 1 now reads "New" (update
path) and row 3 is inserted. -/
theorem merge_upsert_semantics_witness :
    ((([oldRow] : List RawRow).map RawRow.id).Nodup ∧
      (([newRow, thirdRow] : List RawRow).map RawRow.id).Nodup) ∧
    lookupId (mergeInto [oldRow] [newRow, thirdRow]) 1 = some newRow ∧
    oldRow.name = "Old" ∧ newRow.name = "New" ∧
    lookupId (mergeInto [oldRow] [newRow, thirdRow]) 3 = some thirdRow := by
  have h := merge_upsert_semantics [oldRow] [newRow, thirdRow] (by decide) (by decide)
  exact ⟨⟨by decide, by decide⟩, h.1 1 newRow (by decide), rfl, rfl,
    h.1 3 thirdRow (by decide)⟩

/-- C5: merging the same CSV a second time leaves the base table exactly
as it was after the first merge. -/
theorem merge_idempotent (base csv : List RawRow)
    (hcsv : (csv.map RawRow.id).Nodup) :
    mergeInto (mergeInto base csv) csv = mergeInto base csv := by
  have hunfold : mergeInto (mergeInto base csv) csv =
      (mergeInto base csv).map (updateRow csv) ++
        csv.filter (fun c => !((mergeInto base csv).any (fun r => r.id == c.id))) := rfl
  have h1 : (mergeInto base csv).map (updateRow csv) = mergeInto base csv := by
    have hfix : ∀ a ∈ mergeInto base csv, updateRow csv a = id a := by
      intro a ha
      unfold mergeInto at ha
      rcases List.mem_append.mp ha with h | h
      · obtain ⟨r, _, rfl⟩ := List.mem_map.mp h
        exact updateRow_idem csv r
      · exact updateRow_mem_self csv hcsv (List.mem_of_mem_filter h)
    rw [List.map_congr_left hfix, List.map_id]
  have h2 : csv.filter
      (fun c => !((mergeInto base csv).any (fun r => r.id == c.id))) = [] := by
    rw [List.filter_eq_nil_iff]
    intro c hc
    obtain ⟨x, hx, hxid⟩ := mem_id_mergeInto base csv c hc
    have hany : (mergeInto base csv).any (fun r => r.id == c.id) = true :=
      List.any_eq_true.mpr ⟨x, hx, by simp [hxid]⟩
    simp [hany]
  rw [hunfold, h1, h2, List.append_nil]

/-- C5, witness: idempotence at the concrete merge example. -/
theorem merge_idempotent_witness :
    (([newRow, thirdRow] : List RawRow).map RawRow.id).Nodup ∧
    mergeInto (mergeInto [oldRow] [newRow, thirdRow]) [newRow, thirdRow] =
      mergeInto [oldRow] [newRow, thirdRow] :=
  ⟨by decide, merge_idempotent [oldRow] [newRow, thirdRow] (by decide)⟩

/-- C6, counterexample: for year 9999 (a value `--year` accepts) the
claimed window `[Jan 1 9999, Jan 1 10000)` is never produced:
`datetime(10000, 1, 1)` is out of Python's datetime range, so
`year_to_unix_range` raises `ValueError` and the run aborts. -/
theorem year_window_counterexample :
    yearToUnixRange 9999 = none ∧ fetchWindow 0 (some 9999) = none := by
  constructor <;> decide

/-- C6, amended: for every year `1 ≤ Y ≤ 9998` the window is exactly
`[Jan 1 Y 00:00 UTC, Jan 1 (Y+1) 00:00 UTC)` in Unix seconds — each bound
is `86400 ·` (days between 1970 and that New Year, counted year by year) —
and with no year it is `[now - 7 days, now)`.  (Years outside `1..9998`
make the datetime constructor raise instead.) -/
theorem year_window_amended (now y : ℤ) (h1 : 1 ≤ y) (h2 : y ≤ 9998) :
    fetchWindow now (some y) =
      some ((((daysUpTo (y.toNat - 1) : ℕ) : ℤ) - ((daysUpTo 1969 : ℕ) : ℤ)) * 86400,
            (((daysUpTo y.toNat : ℕ) : ℤ) - ((daysUpTo 1969 : ℕ) : ℤ)) * 86400) ∧
    fetchWindow now none = some (now - 7 * 86400, now) ∧
    jan1Timestamp 2024 = 1704067200 := by
  refine ⟨?_, rfl, by norm_num [jan1Timestamp, daysBeforeYear]⟩
  show yearToUnixRange y = _
  unfold yearToUnixRange
  rw [if_pos ⟨h1, by omega⟩]
  unfold jan1Timestamp
  simp only [daysBeforeYear_eq]
  norm_num

/-- C6, witness: the amended statement at year 2024, whose window start
is the real timestamp 1704067200. -/
theorem year_window_amended_witness :
    (1 ≤ (2024 : ℤ) ∧ (2024 : ℤ) ≤ 9998) ∧
    fetchWindow 0 (some 2024) =
      some ((((daysUpTo 2023 : ℕ) : ℤ) - ((daysUpTo 1969 : ℕ) : ℤ)) * 86400,
            (((daysUpTo 2024 : ℕ) : ℤ) - ((daysUpTo 1969 : ℕ) : ℤ)) * 86400) := by
  refine ⟨⟨by norm_num, by norm_num⟩, ?_⟩
  have h := (year_window_amended 0 2024 (by norm_num) (by norm_num)).1
  simpa using h

/-- C7: the projector keeps exactly the fixed ordered columns present in
the input (missing ones are silently dropped), and projecting an
already-projected table changes nothing. -/
theorem select_columns_projection_idempotent (df : DataFrame) :
    (selectColumns df).map Prod.fst =
      stravaColumnsUsed.filter (fun c => df.any (fun col => col.1 == c)) ∧
    selectColumns (selectColumns df) = selectColumns df :=
  ⟨map_fst_projectColumns stravaColumnsUsed df,
    projectColumns_idem stravaColumnsUsed (by decide) df⟩

/-- C8: the token exchanger returns the access-token string iff the
endpoint answers 200; on any other status it produces the logged error
message — which contains the response body — and aborts with no partial
result. -/
theorem access_token_iff_200 (r : TokenResponse) :
    (getAccessToken r = Except.ok r.access_token ↔ r.status_code = 200) ∧
    ((∃ t, getAccessToken r = Except.ok t) ↔ r.status_code = 200) ∧
    (r.status_code ≠ 200 →
      ∃ p, getAccessToken r = Except.error (p ++ r.text)) := by
  unfold getAccessToken
  by_cases h : r.status_code = 200
  · simp [h]
  · simp [h]
    exact ⟨"Error fetching access token: ", rfl⟩

/-- C8, witness: a 404 response aborts with a message ending in the
response body; a 200 response returns the token. -/
theorem access_token_iff_200_witness :
    ((404 : ℕ) ≠ 200) ∧
    (∃ p, getAccessToken ⟨404, "denied", "tok"⟩ = Except.error (p ++ "denied")) ∧
    getAccessToken ⟨200, "body", "tok"⟩ = Except.ok "tok" := by
  refine ⟨by decide, ?_, ?_⟩
  · exact (access_token_iff_200 ⟨404, "denied", "tok"⟩).2.2 (by decide)
  · exact (access_token_iff_200 ⟨200, "body", "tok"⟩).1.mpr rfl

/-- C9: `--year 0` is falsy in `if args.year:`, so the run behaves as if
no year were given: it fetches the trailing-7-days window and writes
`activities_last_7_days.csv`, not `activities_0.csv`. -/
theorem year_zero_treated_as_absent (now : ℤ) :
    mainPlan now (some 0) = ("activities_last_7_days.csv", some (now - 7 * 86400, now)) ∧
    mainPlan now (some 0) = mainPlan now none ∧
    (mainPlan now (some 0)).1 ≠ "activities_0.csv" := by
  refine ⟨?_, ?_, ?_⟩
  · simp [mainPlan, fetchWindow]
  · simp [mainPlan]
  · have h : (mainPlan now (some 0)).1 = "activities_last_7_days.csv" := by
      simp [mainPlan]
    rw [h]
    decide

/-- C10: with zero fetched records the accumulator is empty,
`pd.DataFrame([])` has no columns, the projector keeps none of the six
expected columns, and the CSV header has no fields. -/
theorem empty_fetch_empty_columns :
    fetchRecords 0 = [] ∧
    dfOfRecords [] = [] ∧
    selectColumns (dfOfRecords []) = [] ∧
    csvHeaderFields (selectColumns (dfOfRecords [])) = [] := by
  refine ⟨?_, rfl, rfl, rfl⟩
  show fetchRecsAux 0 1 = []
  unfold fetchRecsAux
  norm_num [pageOf]
